import Mathlib

/-!
Verification of the permit-submission service
(`backend/app/api/permits.py`, `backend/app/schemas/permit.py`).

The service keeps a module-level mutable list `permits` and exposes two
handlers: `create_permit`, which synthesizes a `Permit` record and appends
it, and `list_permits`, which returns the list.

Embedding choices:
* The nondeterministic inputs of one `create_permit` call are made explicit
  parameters: `uuid` for the `str(uuid4())` result, and `t1`, `t2` for the
  two successive `datetime.now()` reads.  Python evaluates keyword arguments
  left to right, so the first read `t1` is bound to `submitted_at` and the
  second read `t2` to `updated_at`.  Timestamps are modelled as `Nat` clock
  values.
* The mutable module-level list is passed as explicit state
  (`List Permit` in, `List Permit` out).
* A sequence of handler invocations within one process run is a fold over a
  list of `CreateInput` values starting from the initial store `[]`
  (the module-level `permits = []`).
-/

/-- The client-supplied payload, from `schemas/permit.py` (`PermitCreate`):
`county_id : int`, `type : str`. -/
structure PermitCreate where
  county_id : Int
  type : String
deriving DecidableEq, Repr

/-- The server-side record, from `schemas/permit.py` (`Permit`, which extends
`PermitCreate` with the server-assigned fields). -/
structure Permit where
  county_id : Int
  type : String
  id : String
  user_id : String
  status : String
  current_step : String
  submitted_at : Nat
  updated_at : Nat
  offline_submission : Bool
deriving DecidableEq, Repr

/-- `create_permit` from `api/permits.py`: builds the new record with the
generated id, the fixed placeholder user, the echoed payload fields, the
fixed initial status values, the two clock reads, and `offline_submission`
false; appends it to the store; returns it.  The returned pair is
(returned record, store after the call). -/
def create_permit (uuid : String) (t1 t2 : Nat) (permit : PermitCreate)
    (permits : List Permit) : Permit × List Permit :=
  let new_permit : Permit :=
    { id := uuid
      user_id := "demo_user"
      type := permit.type
      county_id := permit.county_id
      status := "application"
      current_step := "application"
      submitted_at := t1
      updated_at := t2
      offline_submission := false }
  (new_permit, permits ++ [new_permit])

/-- `list_permits` from `api/permits.py`: returns the module-level list. -/
def list_permits (permits : List Permit) : List Permit :=
  permits

/-- The inputs of one `create_permit` invocation: the payload, the
`str(uuid4())` value, and the two `datetime.now()` reads in call order. -/
structure CreateInput where
  req : PermitCreate
  uuid : String
  t1 : Nat
  t2 : Nat
deriving DecidableEq, Repr

/-- The record a single `create_permit` call returns for the given inputs
(it does not depend on the store contents). -/
def mkRecord (c : CreateInput) : Permit :=
  (create_permit c.uuid c.t1 c.t2 c.req []).1

/-- Run a sequence of `create_permit` calls against a store, threading the
store through. -/
def runCreates : List CreateInput → List Permit → List Permit
  | [], permits => permits
  | c :: cs, permits => runCreates cs (create_permit c.uuid c.t1 c.t2 c.req permits).2

/-- A JSON-ish value of a request-body field. -/
inductive JsonValue where
  | num (n : Int)
  | str (s : String)
  | bool (b : Bool)
  | null
deriving DecidableEq, Repr

/-- Modelled from the spec: the framework's request-validation layer (FastAPI
with the pydantic model `PermitCreate`) is not part of the repository source;
per the spec, `county_id` must deserialize as an integer and `type` as a
string, and a malformed or missing field is rejected as a client error before
the create operation is invoked.  An integer field rejects a non-numeric
value. -/
def parseIntField : JsonValue → Option Int
  | .num n => some n
  | _ => none

/-- Modelled from the spec: a string field of the pydantic model accepts a
string value and rejects the rest. -/
def parseStrField : JsonValue → Option String
  | .str s => some s
  | _ => none

/-- Modelled from the spec: deserialization of a request body into
`PermitCreate` — both declared fields must be present and well-typed,
otherwise validation fails. -/
def parsePermitCreate (body : List (String × JsonValue)) : Option PermitCreate :=
  match body.lookup "county_id", body.lookup "type" with
  | some cv, some tv =>
    match parseIntField cv, parseStrField tv with
    | some c, some t => some { county_id := c, type := t }
    | _, _ => none
  | _, _ => none

/-- Modelled from the spec: the full request pipeline for POST /permits.
Validation runs first; on failure the handler is never invoked, a client
error is returned and the store is untouched; on success `create_permit`
runs. -/
def handle_create (uuid : String) (t1 t2 : Nat) (body : List (String × JsonValue))
    (permits : List Permit) : Except String Permit × List Permit :=
  match parsePermitCreate body with
  | none => (Except.error "422 Unprocessable Entity", permits)
  | some req =>
    let r := create_permit uuid t1 t2 req permits
    (Except.ok r.1, r.2)

/-- A run of creates appends, in order, exactly the records determined by the
inputs. -/
theorem runCreates_eq_append (cs : List CreateInput) (s : List Permit) :
    runCreates cs s = s ++ cs.map mkRecord := by
  induction cs generalizing s with
  | nil => simp [runCreates]
  | cons c cs ih => simp [runCreates, ih, create_permit, mkRecord]

/-- C1 (counterexample): the claim that `submitted_at` equals `updated_at`
fails on the code: `create_permit` reads the clock twice, once per field, so
whenever the second `datetime.now()` read differs from the first the two
timestamps differ.  Concretely, with clock reads 0 then 1 the created record
has `submitted_at = 0` and `updated_at = 1`. -/
theorem C1_submitted_eq_updated_counterexample :
    ¬ ((create_permit "a" 0 1 { county_id := 12, type := "roofing" } []).1.submitted_at =
       (create_permit "a" 0 1 { county_id := 12, type := "roofing" } []).1.updated_at) := by
  decide

/-- C1 (amended): `submitted_at` and `updated_at` are the two successive
clock reads of the creating call, so under non-decreasing clock reads every
record returned by create, and every record later returned by list, has
`submitted_at ≤ updated_at` (equality only when the clock did not advance
between the two reads). -/
theorem C1_submitted_le_updated (u : String) (t1 t2 : Nat) (req : PermitCreate)
    (s : List Permit) (h12 : t1 ≤ t2)
    (cs : List CreateInput) (hcs : ∀ c ∈ cs, c.t1 ≤ c.t2)
    (p : Permit) (hp : p ∈ list_permits (runCreates cs [])) :
    ((create_permit u t1 t2 req s).1.submitted_at ≤
       (create_permit u t1 t2 req s).1.updated_at) ∧
    p.submitted_at ≤ p.updated_at := by
  refine ⟨h12, ?_⟩
  simp only [list_permits, runCreates_eq_append, List.nil_append, List.mem_map] at hp
  obtain ⟨c, hc, rfl⟩ := hp
  exact hcs c hc

/-- C1 (witness): the amended theorem applied at concrete inputs. -/
theorem C1_witness :
    ((create_permit "a" 3 4 { county_id := 12, type := "roofing" } []).1.submitted_at ≤
       (create_permit "a" 3 4 { county_id := 12, type := "roofing" } []).1.updated_at) ∧
    (mkRecord { req := { county_id := 1, type := "x" }, uuid := "b", t1 := 5, t2 := 7 }).submitted_at ≤
      (mkRecord { req := { county_id := 1, type := "x" }, uuid := "b", t1 := 5, t2 := 7 }).updated_at :=
  C1_submitted_le_updated "a" 3 4 { county_id := 12, type := "roofing" } [] (by decide)
    [{ req := { county_id := 1, type := "x" }, uuid := "b", t1 := 5, t2 := 7 }]
    (by decide) _ (by decide)

/-- C2: after N successful create calls starting from the initial empty
store, a list call returns exactly N records, and they are exactly the
records of the N creates in issue order. -/
theorem C2_list_returns_creates_in_order (cs : List CreateInput) :
    list_permits (runCreates cs []) = cs.map mkRecord ∧
    (list_permits (runCreates cs [])).length = cs.length := by
  constructor
  · simp [list_permits, runCreates_eq_append]
  · simp [list_permits, runCreates_eq_append]

/-- C3: under the uuid4 freshness assumption (the generated tokens of a
process run are pairwise distinct and non-empty), every create returns a
record whose id is non-empty and distinct from every other created record's
id, and id-uniqueness of the store is preserved by create (with a fresh
token) and by list. -/
theorem C3_ids_unique (cs : List CreateInput)
    (hnodup : (cs.map CreateInput.uuid).Nodup)
    (hne : ∀ c ∈ cs, c.uuid ≠ "")
    (s : List Permit) (u : String) (t1 t2 : Nat) (req : PermitCreate)
    (hs : (s.map Permit.id).Nodup) (hu : u ∉ s.map Permit.id) :
    ((runCreates cs []).map Permit.id).Nodup ∧
    (∀ p ∈ runCreates cs [], p.id ≠ "") ∧
    ((create_permit u t1 t2 req s).2.map Permit.id).Nodup ∧
    ((list_permits s).map Permit.id).Nodup := by
  have hids : (runCreates cs []).map Permit.id = cs.map CreateInput.uuid := by
    simp [runCreates_eq_append, mkRecord, create_permit, Function.comp]
  refine ⟨hids ▸ hnodup, ?_, ?_, hs⟩
  · intro p hp
    simp only [runCreates_eq_append, List.nil_append, List.mem_map] at hp
    obtain ⟨c, hc, rfl⟩ := hp
    exact hne c hc
  · simp only [create_permit, List.map_append, List.map_cons, List.map_nil]
    rw [List.nodup_append]
    refine ⟨hs, List.nodup_singleton u, ?_⟩
    intro a ha hmem
    simp only [List.mem_singleton] at hmem
    exact hu (hmem ▸ ha)

/-- C3 (witness): the uniqueness theorem applied at a concrete two-create
run with distinct non-empty tokens. -/
theorem C3_witness :
    ((runCreates
        [{ req := { county_id := 1, type := "a" }, uuid := "u1", t1 := 0, t2 := 0 },
         { req := { county_id := 2, type := "b" }, uuid := "u2", t1 := 1, t2 := 1 }]
        []).map Permit.id).Nodup :=
  (C3_ids_unique
    [{ req := { county_id := 1, type := "a" }, uuid := "u1", t1 := 0, t2 := 0 },
     { req := { county_id := 2, type := "b" }, uuid := "u2", t1 := 1, t2 := 1 }]
    (by decide) (by decide) [] "w" 0 0 { county_id := 0, type := "x" }
    (by decide) (by decide)).1

/-- C4: every record returned by create has the fixed defaults
`status = "application"`, `current_step = "application"`,
`offline_submission = false`, `user_id = "demo_user"`, and so does every
record returned by list after any run of creates from the initial store. -/
theorem C4_fixed_defaults (u : String) (t1 t2 : Nat) (req : PermitCreate) (s : List Permit)
    (cs : List CreateInput) (p : Permit) (hp : p ∈ list_permits (runCreates cs [])) :
    ((create_permit u t1 t2 req s).1.status = "application" ∧
     (create_permit u t1 t2 req s).1.current_step = "application" ∧
     (create_permit u t1 t2 req s).1.offline_submission = false ∧
     (create_permit u t1 t2 req s).1.user_id = "demo_user") ∧
    (p.status = "application" ∧ p.current_step = "application" ∧
     p.offline_submission = false ∧ p.user_id = "demo_user") := by
  refine ⟨⟨rfl, rfl, rfl, rfl⟩, ?_⟩
  simp only [list_permits, runCreates_eq_append, List.nil_append, List.mem_map] at hp
  obtain ⟨c, _, rfl⟩ := hp
  exact ⟨rfl, rfl, rfl, rfl⟩

/-- C4 (witness): the fixed-defaults theorem applied at concrete inputs. -/
theorem C4_witness :
    ((create_permit "a" 0 0 { county_id := 3, type := "t" } []).1.status = "application" ∧
     (create_permit "a" 0 0 { county_id := 3, type := "t" } []).1.current_step = "application" ∧
     (create_permit "a" 0 0 { county_id := 3, type := "t" } []).1.offline_submission = false ∧
     (create_permit "a" 0 0 { county_id := 3, type := "t" } []).1.user_id = "demo_user") ∧
    ((mkRecord { req := { county_id := 3, type := "t" }, uuid := "a", t1 := 0, t2 := 0 }).status = "application" ∧
     (mkRecord { req := { county_id := 3, type := "t" }, uuid := "a", t1 := 0, t2 := 0 }).current_step = "application" ∧
     (mkRecord { req := { county_id := 3, type := "t" }, uuid := "a", t1 := 0, t2 := 0 }).offline_submission = false ∧
     (mkRecord { req := { county_id := 3, type := "t" }, uuid := "a", t1 := 0, t2 := 0 }).user_id = "demo_user") :=
  C4_fixed_defaults "a" 0 0 { county_id := 3, type := "t" } []
    [{ req := { county_id := 3, type := "t" }, uuid := "a", t1 := 0, t2 := 0 }] _ (by decide)

/-- C5: create is not idempotent: two calls with the same payload (with
distinct generated tokens, as uuid4 guarantees) return two distinct records
with distinct ids, and the store afterwards retains both. -/
theorem C5_not_idempotent (u1 u2 : String) (t1 t2 t3 t4 : Nat)
    (req : PermitCreate) (s : List Permit) (hu : u1 ≠ u2) :
    (create_permit u1 t1 t2 req s).1 ≠
      (create_permit u2 t3 t4 req (create_permit u1 t1 t2 req s).2).1 ∧
    (create_permit u1 t1 t2 req s).1.id ≠
      (create_permit u2 t3 t4 req (create_permit u1 t1 t2 req s).2).1.id ∧
    (create_permit u2 t3 t4 req (create_permit u1 t1 t2 req s).2).2 =
      s ++ [(create_permit u1 t1 t2 req s).1,
            (create_permit u2 t3 t4 req (create_permit u1 t1 t2 req s).2).1] := by
  refine ⟨?_, hu, by simp [create_permit]⟩
  intro h
  exact hu (congrArg Permit.id h)

/-- C5 (witness): the non-idempotence theorem applied at a concrete
duplicated payload. -/
theorem C5_witness :
    (create_permit "u1" 0 0 { county_id := 12, type := "roofing" } []).1 ≠
      (create_permit "u2" 1 1 { county_id := 12, type := "roofing" }
        (create_permit "u1" 0 0 { county_id := 12, type := "roofing" } []).2).1 ∧
    (create_permit "u1" 0 0 { county_id := 12, type := "roofing" } []).1.id ≠
      (create_permit "u2" 1 1 { county_id := 12, type := "roofing" }
        (create_permit "u1" 0 0 { county_id := 12, type := "roofing" } []).2).1.id ∧
    (create_permit "u2" 1 1 { county_id := 12, type := "roofing" }
        (create_permit "u1" 0 0 { county_id := 12, type := "roofing" } []).2).2 =
      [] ++ [(create_permit "u1" 0 0 { county_id := 12, type := "roofing" } []).1,
             (create_permit "u2" 1 1 { county_id := 12, type := "roofing" }
               (create_permit "u1" 0 0 { county_id := 12, type := "roofing" } []).2).1] :=
  C5_not_idempotent "u1" "u2" 0 0 1 1 { county_id := 12, type := "roofing" } [] (by decide)

/-- C6: every create call appends exactly one record at the end of the
store, leaving what was there before (and its order) unchanged, and returns
exactly the appended record — the new last element. -/
theorem C6_create_appends_one (u : String) (t1 t2 : Nat) (req : PermitCreate)
    (s : List Permit) :
    (create_permit u t1 t2 req s).2 = s ++ [(create_permit u t1 t2 req s).1] ∧
    (create_permit u t1 t2 req s).2.length = s.length + 1 ∧
    (create_permit u t1 t2 req s).2.getLast? = some (create_permit u t1 t2 req s).1 := by
  refine ⟨rfl, by simp [create_permit], ?_⟩
  simp [create_permit, List.getLast?_concat]

/-- C7: a create request whose body fails schema validation is rejected with
a client error before `create_permit` runs: no record is appended, the store
is unchanged, and a subsequent list call returns the same count as before. -/
theorem C7_invalid_create_rejected (u : String) (t1 t2 : Nat)
    (body : List (String × JsonValue)) (s : List Permit)
    (hbad : parsePermitCreate body = none) :
    (handle_create u t1 t2 body s).1 = Except.error "422 Unprocessable Entity" ∧
    (handle_create u t1 t2 body s).2 = s ∧
    (list_permits (handle_create u t1 t2 body s).2).length = (list_permits s).length := by
  simp [handle_create, hbad, list_permits]

/-- C7 (witness): the rejection theorem applied at a concrete malformed
body (`county_id` a non-numeric string). -/
theorem C7_witness :
    (handle_create "a" 0 0
        [("county_id", JsonValue.str "abc"), ("type", JsonValue.str "roofing")] []).1 =
      Except.error "422 Unprocessable Entity" ∧
    (handle_create "a" 0 0
        [("county_id", JsonValue.str "abc"), ("type", JsonValue.str "roofing")] []).2 = [] ∧
    (list_permits (handle_create "a" 0 0
        [("county_id", JsonValue.str "abc"), ("type", JsonValue.str "roofing")] []).2).length =
      (list_permits ([] : List Permit)).length :=
  C7_invalid_create_rejected "a" 0 0
    [("county_id", JsonValue.str "abc"), ("type", JsonValue.str "roofing")] [] (by decide)

/-- C8: create echoes the submitted fields unchanged, and in the concrete
scenario POST with county_id 12 and type "roofing" on an empty store the
response carries those values with the fixed defaults, and a following list
call returns exactly that record. -/
theorem C8_create_echoes_payload (u : String) (t1 t2 : Nat) (req : PermitCreate)
    (s : List Permit) :
    ((create_permit u t1 t2 req s).1.county_id = req.county_id ∧
     (create_permit u t1 t2 req s).1.type = req.type) ∧
    ((create_permit u t1 t2 { county_id := 12, type := "roofing" } []).1.county_id = 12 ∧
     (create_permit u t1 t2 { county_id := 12, type := "roofing" } []).1.type = "roofing" ∧
     (create_permit u t1 t2 { county_id := 12, type := "roofing" } []).1.status = "application" ∧
     (create_permit u t1 t2 { county_id := 12, type := "roofing" } []).1.offline_submission = false ∧
     list_permits (create_permit u t1 t2 { county_id := 12, type := "roofing" } []).2 =
       [(create_permit u t1 t2 { county_id := 12, type := "roofing" } []).1]) :=
  ⟨⟨rfl, rfl⟩, rfl, rfl, rfl, rfl, rfl⟩

/-- C9: no operation mutates an existing record: create leaves every
previously stored record and its position unchanged (the old store is an
unchanged prefix of the new one), and list returns the stored sequence
as-is, modifying nothing. -/
theorem C9_no_mutation (u : String) (t1 t2 : Nat) (req : PermitCreate) (s : List Permit) :
    (create_permit u t1 t2 req s).2.take s.length = s ∧ list_permits s = s := by
  constructor
  · simp [create_permit]
  · rfl

/-- C10: within one create call the first clock read is bound to
`submitted_at` and the second to `updated_at`; under non-decreasing clock
reads the created record therefore satisfies
`submitted_at ≤ updated_at`. -/
theorem C10_timestamps_read_in_order (u : String) (t1 t2 : Nat) (req : PermitCreate)
    (s : List Permit) (hclock : t1 ≤ t2) :
    (create_permit u t1 t2 req s).1.submitted_at = t1 ∧
    (create_permit u t1 t2 req s).1.updated_at = t2 ∧
    (create_permit u t1 t2 req s).1.submitted_at ≤
      (create_permit u t1 t2 req s).1.updated_at :=
  ⟨rfl, rfl, hclock⟩

/-- C10 (witness): the clock-order theorem applied at concrete reads 2 and
5. -/
theorem C10_witness :
    (create_permit "a" 2 5 { county_id := 7, type := "fence" } []).1.submitted_at = 2 ∧
    (create_permit "a" 2 5 { county_id := 7, type := "fence" } []).1.updated_at = 5 ∧
    (create_permit "a" 2 5 { county_id := 7, type := "fence" } []).1.submitted_at ≤
      (create_permit "a" 2 5 { county_id := 7, type := "fence" } []).1.updated_at :=
  C10_timestamps_read_in_order "a" 2 5 { county_id := 7, type := "fence" } [] (by decide)
